import Mathlib

/-!
Verification development for the Smart Panel repository (desktop Tkinter
variant `First.py` and the Flask web variant `app.py`).

The desktop UI state and its two pointer handlers (`_on_canvas_click`,
`_on_canvas_drag`), the overlay geometry computed by the draw functions,
and the state-merge endpoint of the web variant and camera stream generator are
shallowly embedded below.  Pixel coordinates and widget sizes are integers
(`ℤ`); the Python float expressions (true division, `int()` truncation) are
modelled exactly over `ℚ`, with `pyInt` playing the role of the Python
builtin `int()` (truncation toward zero).
-/

/-- Floor of a rational as an integer, computed from the reduced fraction.
`q.num / q.den` with `ℤ` division (which rounds toward negative infinity)
is exactly `⌊q⌋` since `q.den > 0`. -/
def ratFloor (q : ℚ) : ℤ := q.num / (q.den : ℤ)

/-- Python builtin `int()` applied to a float: truncation toward zero. -/
def pyInt (q : ℚ) : ℤ := if 0 ≤ q then ratFloor q else -(ratFloor (-q))

/-- Round half up, `⌊q + 1/2⌋`, computably; agrees with Mathlib's `round`. -/
def ratRound (q : ℚ) : ℤ := ratFloor (q + 1/2)

theorem ratFloor_eq_floor (q : ℚ) : ratFloor q = ⌊q⌋ := Rat.floor_def.symm

theorem pyInt_eq_floor (q : ℚ) (h : 0 ≤ q) : pyInt q = ⌊q⌋ := by
  rw [pyInt, if_pos h, ratFloor_eq_floor]

theorem ratRound_eq_round (q : ℚ) : ratRound q = round q := by
  rw [ratRound, ratFloor_eq_floor, round_eq]

/-- Floor `⌊(a : ℚ) / c⌋` is integer division when the denominator is positive. -/
theorem floor_int_div (a c : ℤ) (hc : 0 < c) : ⌊((a : ℚ) / (c : ℚ))⌋ = a / c := by
  obtain ⟨n, rfl⟩ : ∃ n : ℕ, (n : ℤ) = c := ⟨c.toNat, Int.toNat_of_nonneg hc.le⟩
  rw [show (((n : ℤ) : ℚ)) = ((n : ℕ) : ℚ) by push_cast; ring]
  exact_mod_cast Rat.floor_intCast_div_natCast a n

/-- Evaluation principle: a nonnegative rational equal to `a / c` with
`c > 0` has `pyInt` equal to the integer division `a / c`. -/
theorem pyInt_eq_ediv (q : ℚ) (a c : ℤ) (hc : 0 < c) (hq : q * (c : ℚ) = (a : ℚ))
    (h0 : 0 ≤ q) : pyInt q = a / c := by
  have hc' : ((c : ℚ)) ≠ 0 := by exact_mod_cast hc.ne'
  have hqa : q = (a : ℚ) / (c : ℚ) := by
    field_simp
    linarith [hq]
  rw [pyInt_eq_floor q h0, hqa, floor_int_div a c hc]

/-- Evaluation principle for `ratRound`. -/
theorem ratRound_eq_ediv (q : ℚ) (a c : ℤ) (hc : 0 < c) (hq : q * (c : ℚ) = (a : ℚ)) :
    ratRound q = (2 * a + c) / (2 * c) := by
  have hc' : ((c : ℚ)) ≠ 0 := by exact_mod_cast hc.ne'
  have h2c : (0 : ℤ) < 2 * c := by omega
  have hqa : q + 1/2 = ((2 * a + c : ℤ) : ℚ) / ((2 * c : ℤ) : ℚ) := by
    push_cast
    field_simp
    linarith [hq]
  rw [ratRound, ratFloor_eq_floor, hqa, floor_int_div _ _ h2c]

/-- The three pages of the panel. -/
inductive Page where
  | camera
  | alarm
  | video
deriving DecidableEq

/-- The desktop UI state: the fields of `SmartPanelApp` that the pointer
handlers read and write (`First.py`, `__init__`). -/
structure UIState where
  current_page : Page
  is_recording : Bool
  brightness_value : ℤ
  volume_value : ℤ
  alarm_left_value : ℤ
  alarm_right_value : ℤ
  alarm_set_time : Option String
  temperature : ℚ
deriving DecidableEq

/-- Initial state (`__init__`): page `camera`, not recording, brightness
and volume `50`, alarm hour/minute taken from the wall clock (parameters
`h0`, `m0`), no alarm set, temperature `20.0`. -/
def initState (h0 m0 : ℤ) : UIState :=
  { current_page := Page.camera
    is_recording := false
    brightness_value := 50
    volume_value := 50
    alarm_left_value := h0
    alarm_right_value := m0
    alarm_set_time := none
    temperature := 20 }

/-- Source `scroll_top = int(h*0.25)` (`_draw_camera_overlay` and friends). -/
def scrollTop (h : ℤ) : ℤ := pyInt ((h : ℚ) * (25/100))

/-- Source `scroll_bottom = int(h*0.90)`. -/
def scrollBottom (h : ℤ) : ℤ := pyInt ((h : ℚ) * (90/100))

/-- Camera-page record button, left edge: `btn_x = w // 2 - 140 // 2`. -/
def camBtnX (w : ℤ) : ℤ := Int.fdiv w 2 - 70

/-- Camera-page record button, top edge: `btn_y = int(h * 0.88)`. -/
def camBtnY (h : ℤ) : ℤ := pyInt ((h : ℚ) * (88/100))

/-- Alarm page `panel_top = int(h*0.25)` (`_draw_alarm_overlay`). -/
def panelTop (h : ℤ) : ℤ := pyInt ((h : ℚ) * (25/100))

/-- Alarm page `panel_h = int(h*0.55)`. -/
def panelH (h : ℤ) : ℤ := pyInt ((h : ℚ) * (55/100))

/-- Source `center_x = w // 2` (Python floor division). -/
def centerX (w : ℤ) : ℤ := Int.fdiv w 2

/-- Left spinbox panel `left_x1 = center_x - spinbox_w - spacing // 2`. -/
def spinLeftX1 (w : ℤ) : ℤ := centerX w - 320 - 50

/-- Left spinbox panel `left_x2 = left_x1 + spinbox_w`. -/
def spinLeftX2 (w : ℤ) : ℤ := spinLeftX1 w + 320

/-- Right spinbox panel `right_x1 = center_x + spacing // 2`. -/
def spinRightX1 (w : ℤ) : ℤ := centerX w + 50

/-- Right spinbox panel `right_x2 = right_x1 + spinbox_w`. -/
def spinRightX2 (w : ℤ) : ℤ := spinRightX1 w + 320

/-- Top edge of both spinbox panels, `left_y1 = panel_top + 90`. -/
def spinY1 (h : ℤ) : ℤ := panelTop h + 90

/-- Bottom edge of both spinbox panels, `left_y2 = left_y1 + spinbox_h`. -/
def spinY2 (h : ℤ) : ℤ := spinY1 h + 180

/-- Done button left edge: `btn_x = w - pad - btn_w + 20` with `pad = 80`,
`btn_w = 140`. -/
def doneX (w : ℤ) : ℤ := w - 80 - 140 + 20

/-- Done button top edge: `btn_y = panel_bottom + 80`. -/
def doneY (h : ℤ) : ℤ := panelTop h + panelH h + 80

/-- Closed axis-aligned rectangle membership used by all hit tests
(`x1 <= x <= x2 and y1 <= y <= y2`). -/
def inRect (x y x1 y1 x2 y2 : ℤ) : Prop :=
  x1 ≤ x ∧ x ≤ x2 ∧ y1 ≤ y ∧ y ≤ y2

instance (x y x1 y1 x2 y2 : ℤ) : Decidable (inRect x y x1 y1 x2 y2) := by
  unfold inRect
  infer_instance

/-- Thumb top edge drawn by `_draw_scrollbars`:
`thumb_pos = scroll_top + int((scroll_height - thumb_height) * (1 - value/100))`
with `thumb_height = 50`. -/
def thumbTop (h v : ℤ) : ℤ :=
  scrollTop h +
    pyInt (((scrollBottom h - scrollTop h - 50 : ℤ) : ℚ) * (1 - (v : ℚ) / 100))

/-- The drawn up-button zone of the left spinbox (`_draw_alarm_overlay`):
rectangle `(x2-60, y1+2, x2-2, up_btn_y2-1)` where the button column
starts at `btn_x1 = display_x2 = x2 - 60` and
`up_btn_y2 = y1 + (y2 - y1) // 2`. -/
def drawnUpZoneLeft (w h x y : ℤ) : Prop :=
  inRect x y (spinLeftX2 w - 60) (spinY1 h + 2) (spinLeftX2 w - 2)
    (spinY1 h + Int.fdiv (spinY2 h - spinY1 h) 2 - 1)

instance (w h x y : ℤ) : Decidable (drawnUpZoneLeft w h x y) := by
  unfold drawnUpZoneLeft
  infer_instance

/-- The scrollbar value computed by `_on_canvas_drag`:
`max(0, min(100, int((1 - (y - top)/height) * 100)))`. -/
def dragValue (top hgt y : ℤ) : ℤ :=
  max 0 (min 100 (pyInt ((1 - ((y - top : ℤ) : ℚ) / ((hgt : ℤ) : ℚ)) * 100)))

/-- The drag handler `_on_canvas_drag`: a `<B1-Motion>` event at `(x, y)`
against the scrollbar geometry of the last frame drawn at canvas size
`(w, h)`.  Left bar at `x = 40` updates brightness, right bar at
`x = w - 40` updates volume; each requires `abs(x - bar_x) < 20` and
`top <= y <= bottom`. -/
def onCanvasDrag (w h : ℤ) (s : UIState) (x y : ℤ) : UIState :=
  if |x - 40| < 20 ∧ scrollTop h ≤ y ∧ y ≤ scrollBottom h then
    { s with brightness_value := dragValue (scrollTop h) (scrollBottom h - scrollTop h) y }
  else if |x - (w - 40)| < 20 ∧ scrollTop h ≤ y ∧ y ≤ scrollBottom h then
    { s with volume_value := dragValue (scrollTop h) (scrollBottom h - scrollTop h) y }
  else s

/-- Python `f"{v:02d}"`: decimal digits zero-padded to width two. -/
def format02 (n : ℤ) : String :=
  if 0 ≤ n ∧ n < 10 then ("0" ++ toString n) else toString n

/-- The string stored by the Done button:
`f"{self.alarm_left_value:02d}:{self.alarm_right_value:02d}"`. -/
def alarmTimeString (s : UIState) : String :=
  format02 s.alarm_left_value ++ ":" ++ format02 s.alarm_right_value

/-- The press handler `_on_canvas_click`: a `<Button-1>` event at `(x, y)`
against the geometry of the last frame drawn at canvas size `(w, h)`.
Camera page: the record button toggles `is_recording`.  Alarm page: the
Done button stores the formatted time; the spinbox button column tested by
the handler is the right `50` px of each panel (`btn_x1 = x2 - 50`), split
at `btn_height = (y2 - y1) // 2`, up first, then down, wrapping with
the nonnegative Python `%`.  No other region mutates anything. -/
def onCanvasClick (w h : ℤ) (s : UIState) (x y : ℤ) : UIState :=
  if s.current_page = Page.camera ∧
      inRect x y (camBtnX w) (camBtnY h) (camBtnX w + 140) (camBtnY h + 50) then
    { s with is_recording := !s.is_recording }
  else if s.current_page = Page.alarm then
    if inRect x y (doneX w) (doneY h) (doneX w + 140) (doneY h + 50) then
      { s with alarm_set_time := some (alarmTimeString s) }
    else if spinLeftX2 w - 50 ≤ x ∧ x ≤ spinLeftX2 w ∧ spinY1 h ≤ y ∧
        y ≤ spinY1 h + Int.fdiv (spinY2 h - spinY1 h) 2 then
      { s with alarm_left_value := (s.alarm_left_value + 1) % 24 }
    else if spinLeftX2 w - 50 ≤ x ∧ x ≤ spinLeftX2 w ∧
        spinY1 h + Int.fdiv (spinY2 h - spinY1 h) 2 ≤ y ∧ y ≤ spinY2 h then
      { s with alarm_left_value := (s.alarm_left_value - 1) % 24 }
    else if spinRightX2 w - 50 ≤ x ∧ x ≤ spinRightX2 w ∧ spinY1 h ≤ y ∧
        y ≤ spinY1 h + Int.fdiv (spinY2 h - spinY1 h) 2 then
      { s with alarm_right_value := (s.alarm_right_value + 1) % 60 }
    else if spinRightX2 w - 50 ≤ x ∧ x ≤ spinRightX2 w ∧
        spinY1 h + Int.fdiv (spinY2 h - spinY1 h) 2 ≤ y ∧ y ≤ spinY2 h then
      { s with alarm_right_value := (s.alarm_right_value - 1) % 60 }
    else s
  else s

/-- One pointer/timer event against the frame geometry of canvas size
`(w, h)`: a press, a drag, a page switch (`show_page`), or a clock tick
(`_update_time`, which rewrites only the simulated temperature). -/
inductive Ev where
  | click (w h x y : ℤ)
  | drag (w h x y : ℤ)
  | page (p : Page)
  | tick (t : ℚ)

/-- Apply one event to the state. -/
def step (s : UIState) : Ev → UIState
  | Ev.click w h x y => onCanvasClick w h s x y
  | Ev.drag w h x y => onCanvasDrag w h s x y
  | Ev.page p => { s with current_page := p }
  | Ev.tick t => { s with temperature := t }

/-- Apply a finite event sequence in order. -/
def run (s : UIState) (l : List Ev) : UIState := l.foldl step s

theorem scrollTop_eval (h : ℤ) (hh : 0 ≤ h) : scrollTop h = h * 25 / 100 := by
  apply pyInt_eq_ediv _ _ _ (by norm_num)
  · push_cast
    ring
  · have : (0 : ℚ) ≤ (h : ℚ) := by exact_mod_cast hh
    positivity

theorem scrollBottom_eval (h : ℤ) (hh : 0 ≤ h) : scrollBottom h = h * 90 / 100 := by
  apply pyInt_eq_ediv _ _ _ (by norm_num)
  · push_cast
    ring
  · have : (0 : ℚ) ≤ (h : ℚ) := by exact_mod_cast hh
    positivity

theorem panelTop_eval (h : ℤ) (hh : 0 ≤ h) : panelTop h = h * 25 / 100 := by
  apply pyInt_eq_ediv _ _ _ (by norm_num)
  · push_cast
    ring
  · have : (0 : ℚ) ≤ (h : ℚ) := by exact_mod_cast hh
    positivity

theorem panelH_eval (h : ℤ) (hh : 0 ≤ h) : panelH h = h * 55 / 100 := by
  apply pyInt_eq_ediv _ _ _ (by norm_num)
  · push_cast
    ring
  · have : (0 : ℚ) ≤ (h : ℚ) := by exact_mod_cast hh
    positivity

theorem camBtnY_eval (h : ℤ) (hh : 0 ≤ h) : camBtnY h = h * 88 / 100 := by
  apply pyInt_eq_ediv _ _ _ (by norm_num)
  · push_cast
    ring
  · have : (0 : ℚ) ≤ (h : ℚ) := by exact_mod_cast hh
    positivity

theorem scrollTop_600 : scrollTop 600 = 150 := by
  rw [scrollTop_eval 600 (by norm_num)]
  decide

theorem scrollBottom_600 : scrollBottom 600 = 540 := by
  rw [scrollBottom_eval 600 (by norm_num)]
  decide

theorem panelTop_600 : panelTop 600 = 150 := by
  rw [panelTop_eval 600 (by norm_num)]
  decide

theorem panelH_600 : panelH 600 = 330 := by
  rw [panelH_eval 600 (by norm_num)]
  decide

theorem camBtnY_600 : camBtnY 600 = 528 := by
  rw [camBtnY_eval 600 (by norm_num)]
  decide

/-- Value expression of `_on_canvas_drag` evaluated in integer arithmetic:
for positive track height it is the clamped floor of
`100 * (hgt - (y - top)) / hgt`. -/
theorem dragValue_eval (top hgt y : ℤ) (hH : 0 < hgt) :
    dragValue top hgt y = max 0 (min 100 (100 * (hgt - (y - top)) / hgt)) := by
  have hHQ : ((hgt : ℤ) : ℚ) ≠ 0 := by exact_mod_cast hH.ne'
  have hq : (1 - ((y - top : ℤ) : ℚ) / ((hgt : ℤ) : ℚ)) * 100 * (hgt : ℚ)
      = ((100 * (hgt - (y - top)) : ℤ) : ℚ) := by
    push_cast
    field_simp
    ring
  unfold dragValue
  by_cases h0 : 0 ≤ (1 - ((y - top : ℤ) : ℚ) / ((hgt : ℤ) : ℚ)) * 100
  · rw [pyInt_eq_ediv _ (100 * (hgt - (y - top))) hgt hH hq h0]
  · push_neg at h0
    have ha : 100 * (hgt - (y - top)) < 0 := by
      by_contra hcon
      push_neg at hcon
      have : (0 : ℚ) ≤ ((100 * (hgt - (y - top)) : ℤ) : ℚ) := by exact_mod_cast hcon
      rw [← hq] at this
      nlinarith [this, (show (0 : ℚ) < (hgt : ℚ) by exact_mod_cast hH)]
    have hrhs : 100 * (hgt - (y - top)) / hgt < 0 := Int.ediv_neg' ha hH
    have hlhs : pyInt ((1 - ((y - top : ℤ) : ℚ) / ((hgt : ℤ) : ℚ)) * 100) ≤ 0 := by
      rw [pyInt, if_neg (not_le.mpr h0), ratFloor_eq_floor]
      have : (0 : ℤ) ≤ ⌊-((1 - ((y - top : ℤ) : ℚ) / ((hgt : ℤ) : ℚ)) * 100)⌋ :=
        Int.floor_nonneg.mpr (by linarith)
      omega
    omega

/-- Thumb position of `_draw_scrollbars` evaluated in integer arithmetic,
valid whenever the scaled offset is nonnegative (in particular for
`0 ≤ value ≤ 100` on any track at least as tall as the thumb). -/
theorem thumbTop_eval (h v : ℤ) (hnn : 0 ≤ (scrollBottom h - scrollTop h - 50) * (100 - v)) :
    thumbTop h v = scrollTop h + (scrollBottom h - scrollTop h - 50) * (100 - v) / 100 := by
  unfold thumbTop
  congr 1
  apply pyInt_eq_ediv _ _ _ (by norm_num)
  · push_cast
    ring
  · have h100 : (0 : ℚ) ≤ (((scrollBottom h - scrollTop h - 50) * (100 - v) : ℤ) : ℚ) := by
      exact_mod_cast hnn
    push_cast at h100 ⊢
    ring_nf at h100 ⊢
    linarith [h100]

theorem click_brightness_eq (w h x y : ℤ) (s : UIState) :
    (onCanvasClick w h s x y).brightness_value = s.brightness_value := by
  unfold onCanvasClick
  split_ifs <;> rfl

theorem click_volume_eq (w h x y : ℤ) (s : UIState) :
    (onCanvasClick w h s x y).volume_value = s.volume_value := by
  unfold onCanvasClick
  split_ifs <;> rfl

theorem drag_alarm_left_eq (w h x y : ℤ) (s : UIState) :
    (onCanvasDrag w h s x y).alarm_left_value = s.alarm_left_value := by
  unfold onCanvasDrag
  split_ifs <;> rfl

theorem drag_alarm_right_eq (w h x y : ℤ) (s : UIState) :
    (onCanvasDrag w h s x y).alarm_right_value = s.alarm_right_value := by
  unfold onCanvasDrag
  split_ifs <;> rfl

theorem dragValue_bounds (top hgt y : ℤ) :
    0 ≤ dragValue top hgt y ∧ dragValue top hgt y ≤ 100 := by
  unfold dragValue
  exact ⟨le_max_left 0 _, max_le (by norm_num) (min_le_left 100 _)⟩

theorem click_alarm_left_bounds (w h x y : ℤ) (s : UIState)
    (h0 : 0 ≤ s.alarm_left_value) (h1 : s.alarm_left_value ≤ 23) :
    0 ≤ (onCanvasClick w h s x y).alarm_left_value ∧
      (onCanvasClick w h s x y).alarm_left_value ≤ 23 := by
  unfold onCanvasClick
  split_ifs <;> (try dsimp only) <;> omega

theorem click_alarm_right_bounds (w h x y : ℤ) (s : UIState)
    (h0 : 0 ≤ s.alarm_right_value) (h1 : s.alarm_right_value ≤ 59) :
    0 ≤ (onCanvasClick w h s x y).alarm_right_value ∧
      (onCanvasClick w h s x y).alarm_right_value ≤ 59 := by
  unfold onCanvasClick
  split_ifs <;> (try dsimp only) <;> omega

theorem drag_brightness_bounds (w h x y : ℤ) (s : UIState)
    (h0 : 0 ≤ s.brightness_value) (h1 : s.brightness_value ≤ 100) :
    0 ≤ (onCanvasDrag w h s x y).brightness_value ∧
      (onCanvasDrag w h s x y).brightness_value ≤ 100 := by
  unfold onCanvasDrag
  split_ifs <;> (try dsimp only) <;>
    first
      | exact ⟨h0, h1⟩
      | exact dragValue_bounds _ _ _

theorem drag_volume_bounds (w h x y : ℤ) (s : UIState)
    (h0 : 0 ≤ s.volume_value) (h1 : s.volume_value ≤ 100) :
    0 ≤ (onCanvasDrag w h s x y).volume_value ∧
      (onCanvasDrag w h s x y).volume_value ≤ 100 := by
  unfold onCanvasDrag
  split_ifs <;> (try dsimp only) <;>
    first
      | exact ⟨h0, h1⟩
      | exact dragValue_bounds _ _ _

theorem run_brightness_volume_bounds (s : UIState) (l : List Ev)
    (hb0 : 0 ≤ s.brightness_value) (hb1 : s.brightness_value ≤ 100)
    (hv0 : 0 ≤ s.volume_value) (hv1 : s.volume_value ≤ 100) :
    0 ≤ (run s l).brightness_value ∧ (run s l).brightness_value ≤ 100 ∧
      0 ≤ (run s l).volume_value ∧ (run s l).volume_value ≤ 100 := by
  induction l generalizing s with
  | nil => exact ⟨hb0, hb1, hv0, hv1⟩
  | cons e t ih =>
    show _ ≤ (run (step s e) t).brightness_value ∧ _
    cases e with
    | click w h x y =>
      apply ih
      · rw [step, click_brightness_eq]
        exact hb0
      · rw [step, click_brightness_eq]
        exact hb1
      · rw [step, click_volume_eq]
        exact hv0
      · rw [step, click_volume_eq]
        exact hv1
    | drag w h x y =>
      apply ih
      · exact (drag_brightness_bounds w h x y s hb0 hb1).1
      · exact (drag_brightness_bounds w h x y s hb0 hb1).2
      · exact (drag_volume_bounds w h x y s hv0 hv1).1
      · exact (drag_volume_bounds w h x y s hv0 hv1).2
    | page p => exact ih _ hb0 hb1 hv0 hv1
    | tick t' => exact ih _ hb0 hb1 hv0 hv1

theorem run_alarm_bounds (s : UIState) (l : List Ev)
    (hh0 : 0 ≤ s.alarm_left_value) (hh1 : s.alarm_left_value ≤ 23)
    (hm0 : 0 ≤ s.alarm_right_value) (hm1 : s.alarm_right_value ≤ 59) :
    0 ≤ (run s l).alarm_left_value ∧ (run s l).alarm_left_value ≤ 23 ∧
      0 ≤ (run s l).alarm_right_value ∧ (run s l).alarm_right_value ≤ 59 := by
  induction l generalizing s with
  | nil => exact ⟨hh0, hh1, hm0, hm1⟩
  | cons e t ih =>
    show _ ≤ (run (step s e) t).alarm_left_value ∧ _
    cases e with
    | click w h x y =>
      apply ih
      · exact (click_alarm_left_bounds w h x y s hh0 hh1).1
      · exact (click_alarm_left_bounds w h x y s hh0 hh1).2
      · exact (click_alarm_right_bounds w h x y s hm0 hm1).1
      · exact (click_alarm_right_bounds w h x y s hm0 hm1).2
    | drag w h x y =>
      apply ih
      · rw [step, drag_alarm_left_eq]
        exact hh0
      · rw [step, drag_alarm_left_eq]
        exact hh1
      · rw [step, drag_alarm_right_eq]
        exact hm0
      · rw [step, drag_alarm_right_eq]
        exact hm1
    | page p => exact ih _ hh0 hh1 hm0 hm1
    | tick t' => exact ih _ hh0 hh1 hm0 hm1

/-- Inside the vertical band the truncation in `dragValue` is a floor,
since its operand is nonnegative. -/
theorem dragValue_in_band (top hgt y : ℤ) (hH : 0 < hgt) (hy : y ≤ top + hgt) :
    dragValue top hgt y =
      max 0 (min 100 ⌊(1 - ((y - top : ℤ) : ℚ) / ((hgt : ℤ) : ℚ)) * 100⌋) := by
  have hQ : (0 : ℚ) < ((hgt : ℤ) : ℚ) := by exact_mod_cast hH
  have hle : ((y - top : ℤ) : ℚ) ≤ ((hgt : ℤ) : ℚ) := by exact_mod_cast (by omega : y - top ≤ hgt)
  have hdiv : ((y - top : ℤ) : ℚ) / ((hgt : ℤ) : ℚ) ≤ 1 := (div_le_one hQ).mpr hle
  unfold dragValue
  rw [pyInt_eq_floor _ (by nlinarith [hdiv])]

/-- The scrollbar update formula as the specification words it:
`value = clamp(round((1 − (y − top)/height) × 100), 0, 100)`, with
round-to-nearest instead of the truncation the code performs. -/
def specDragValueRounded (top hgt y : ℤ) : ℤ :=
  max 0 (min 100 (ratRound ((1 - ((y - top : ℤ) : ℚ) / ((hgt : ℤ) : ℚ)) * 100)))

/-- C2 (amended): a drag inside the left band stores the clamped FLOOR
(Python `int()` truncation, equal to the floor here because the operand is
nonnegative in-band) of `(1 − (y − top)/height)·100` into brightness and
leaves volume alone; symmetrically for the right band and volume; a drag
matching neither band changes nothing. -/
theorem drag_sets_truncated_value (w h x y : ℤ) (s : UIState)
    (hH : 0 < scrollBottom h - scrollTop h) :
    ((|x - 40| < 20 ∧ scrollTop h ≤ y ∧ y ≤ scrollBottom h) →
      (onCanvasDrag w h s x y).brightness_value =
        max 0 (min 100 ⌊(1 - ((y - scrollTop h : ℤ) : ℚ) /
          ((scrollBottom h - scrollTop h : ℤ) : ℚ)) * 100⌋) ∧
      (onCanvasDrag w h s x y).volume_value = s.volume_value) ∧
    ((¬ (|x - 40| < 20) ∧ |x - (w - 40)| < 20 ∧ scrollTop h ≤ y ∧ y ≤ scrollBottom h) →
      (onCanvasDrag w h s x y).volume_value =
        max 0 (min 100 ⌊(1 - ((y - scrollTop h : ℤ) : ℚ) /
          ((scrollBottom h - scrollTop h : ℤ) : ℚ)) * 100⌋) ∧
      (onCanvasDrag w h s x y).brightness_value = s.brightness_value) ∧
    ((¬ (|x - 40| < 20 ∧ scrollTop h ≤ y ∧ y ≤ scrollBottom h) ∧
      ¬ (|x - (w - 40)| < 20 ∧ scrollTop h ≤ y ∧ y ≤ scrollBottom h)) →
      onCanvasDrag w h s x y = s) := by
  refine ⟨?_, ?_, ?_⟩
  · intro hband
    unfold onCanvasDrag
    rw [if_pos hband]
    refine ⟨?_, rfl⟩
    exact dragValue_in_band _ _ _ hH (by omega)
  · intro hband
    unfold onCanvasDrag
    rw [if_neg (by tauto), if_pos ⟨hband.2.1, hband.2.2⟩]
    refine ⟨?_, rfl⟩
    exact dragValue_in_band _ _ _ hH (by omega)
  · intro hband
    unfold onCanvasDrag
    rw [if_neg hband.1, if_neg hband.2]

/-- C2 (counterexample): at canvas height 600 the track is `[150, 540]`;
a drag at `y = 151` stores `int(100·389/390) = 99`, while the specified
round-to-nearest formula yields `100`. -/
theorem drag_truncates_not_rounds :
    (onCanvasDrag 1024 600 (initState 7 5) 40 151).brightness_value = 99 ∧
    specDragValueRounded (scrollTop 600) (scrollBottom 600 - scrollTop 600) 151 = 100 ∧
    (99 : ℤ) ≠ 100 := by
  refine ⟨?_, ?_, by decide⟩
  · unfold onCanvasDrag
    rw [scrollTop_600, scrollBottom_600]
    rw [if_pos (by decide)]
    show dragValue 150 (540 - 150) 151 = 99
    rw [dragValue_eval _ _ _ (by norm_num)]
    decide
  · unfold specDragValueRounded
    rw [scrollTop_600, scrollBottom_600]
    rw [ratRound_eq_ediv _ 38900 390 (by norm_num) (by push_cast; field_simp; ring)]
    decide

theorem drag_sets_truncated_value_witness :
    0 < scrollBottom 600 - scrollTop 600 ∧
    (((|(40 : ℤ) - 40| < 20 ∧ scrollTop 600 ≤ 151 ∧ (151 : ℤ) ≤ scrollBottom 600) →
      (onCanvasDrag 1024 600 (initState 7 5) 40 151).brightness_value =
        max 0 (min 100 ⌊(1 - ((151 - scrollTop 600 : ℤ) : ℚ) /
          ((scrollBottom 600 - scrollTop 600 : ℤ) : ℚ)) * 100⌋) ∧
      (onCanvasDrag 1024 600 (initState 7 5) 40 151).volume_value =
        (initState 7 5).volume_value) ∧
    ((¬ (|(40 : ℤ) - 40| < 20) ∧ |(40 : ℤ) - (1024 - 40)| < 20 ∧ scrollTop 600 ≤ 151 ∧
        (151 : ℤ) ≤ scrollBottom 600) →
      (onCanvasDrag 1024 600 (initState 7 5) 40 151).volume_value =
        max 0 (min 100 ⌊(1 - ((151 - scrollTop 600 : ℤ) : ℚ) /
          ((scrollBottom 600 - scrollTop 600 : ℤ) : ℚ)) * 100⌋) ∧
      (onCanvasDrag 1024 600 (initState 7 5) 40 151).brightness_value =
        (initState 7 5).brightness_value) ∧
    ((¬ (|(40 : ℤ) - 40| < 20 ∧ scrollTop 600 ≤ 151 ∧ (151 : ℤ) ≤ scrollBottom 600) ∧
      ¬ (|(40 : ℤ) - (1024 - 40)| < 20 ∧ scrollTop 600 ≤ 151 ∧ (151 : ℤ) ≤ scrollBottom 600)) →
      onCanvasDrag 1024 600 (initState 7 5) 40 151 = initState 7 5)) :=
  ⟨by rw [scrollTop_600, scrollBottom_600]; decide,
   drag_sets_truncated_value 1024 600 40 151 (initState 7 5)
     (by rw [scrollTop_600, scrollBottom_600]; decide)⟩

/-- The geometry-builder-to-drag-handler round trip for the brightness
(left) scrollbar: draw the thumb for value `v` at canvas size 1024×`h`,
then deliver a drag at the thumb track line `x = 40` and at the vertical
center of the drawn thumb (`thumb_pos + 25`), and read brightness. -/
def roundTripBrightness (h v : ℤ) : ℤ :=
  (onCanvasDrag 1024 h { initState 0 0 with brightness_value := v } 40
    (thumbTop h v + 25)).brightness_value

/-- The same round trip for the volume (right) scrollbar at `x = w - 40`. -/
def roundTripVolume (h v : ℤ) : ℤ :=
  (onCanvasDrag 1024 h { initState 0 0 with volume_value := v } 984
    (thumbTop h v + 25)).volume_value

/-- The round trip at canvas height 600 in closed integer form. -/
def rtIntExpr (v : ℤ) : ℤ :=
  max 0 (min 100 (100 * (390 - (150 + 340 * (100 - v) / 100 + 25 - 150)) / 390))

theorem thumbTop_600 (v : ℤ) (h1 : v ≤ 100) :
    thumbTop 600 v = 150 + 340 * (100 - v) / 100 := by
  rw [thumbTop_eval 600 v (by rw [scrollTop_600, scrollBottom_600]; omega),
    scrollTop_600, scrollBottom_600]
  norm_num

theorem roundTripBrightness_eval (v : ℤ) (h0 : 0 ≤ v) (h1 : v ≤ 100) :
    roundTripBrightness 600 v = rtIntExpr v := by
  have hq : 0 ≤ 340 * (100 - v) / 100 := Int.ediv_nonneg (by omega) (by norm_num)
  have hq2 : 340 * (100 - v) / 100 ≤ 340 := by omega
  unfold roundTripBrightness
  unfold onCanvasDrag
  rw [scrollTop_600, scrollBottom_600, thumbTop_600 v h1]
  rw [if_pos (by refine ⟨by decide, by omega, by omega⟩)]
  show dragValue 150 (540 - 150) (150 + 340 * (100 - v) / 100 + 25) = rtIntExpr v
  rw [dragValue_eval _ _ _ (by norm_num)]
  unfold rtIntExpr
  omega

theorem roundTripVolume_eval (v : ℤ) (h0 : 0 ≤ v) (h1 : v ≤ 100) :
    roundTripVolume 600 v = rtIntExpr v := by
  have hq : 0 ≤ 340 * (100 - v) / 100 := Int.ediv_nonneg (by omega) (by norm_num)
  have hq2 : 340 * (100 - v) / 100 ≤ 340 := by omega
  unfold roundTripVolume
  unfold onCanvasDrag
  rw [scrollTop_600, scrollBottom_600, thumbTop_600 v h1]
  rw [if_neg (fun hc => absurd hc.1 (by decide)),
    if_pos (by refine ⟨by decide, by omega, by omega⟩)]
  show dragValue 150 (540 - 150) (150 + 340 * (100 - v) / 100 + 25) = rtIntExpr v
  rw [dragValue_eval _ _ _ (by norm_num)]
  unfold rtIntExpr
  omega

theorem rtIntExpr_bound : ∀ n : Fin 101, (rtIntExpr ((n.val : ℕ) : ℤ) - (n.val : ℕ)).natAbs ≤ 7 := by
  decide

/-- C1 (counterexample): at canvas height 600 and value 100 the thumb is
drawn at the very top of the track (`thumb_pos = 150`); inverting a drag
at the thumb center `y = 175` recovers `int(100·365/390) = 93`, which is
not within rounding tolerance of 100.  The drag handler divides by the
full track height while the builder scales by track height minus thumb
height, so the round trip is lossy. -/
theorem roundtrip_fails_at_full_value :
    roundTripBrightness 600 100 = 93 ∧ ¬ ((93 - 100 : ℤ).natAbs ≤ 1) := by
  constructor
  · rw [roundTripBrightness_eval 100 (by norm_num) (by norm_num)]
    decide
  · decide

/-- C1 (amended): for every value `v ∈ [0, 100]` at the default canvas
height 600, drawing the thumb and inverting a drag at the thumb center
recovers a value within 7 of `v` — not within rounding tolerance — for
both the brightness and volume scrollbars (the bound 7 is attained at
`v = 100`). -/
theorem scrollbar_roundtrip_error_bound (v : ℤ) (h0 : 0 ≤ v) (h1 : v ≤ 100) :
    (roundTripBrightness 600 v - v).natAbs ≤ 7 ∧
    (roundTripVolume 600 v - v).natAbs ≤ 7 := by
  have hb := roundTripBrightness_eval v h0 h1
  have hv := roundTripVolume_eval v h0 h1
  have hn : v.toNat < 101 := by omega
  have hvn : ((v.toNat : ℕ) : ℤ) = v := Int.toNat_of_nonneg h0
  have key := rtIntExpr_bound ⟨v.toNat, hn⟩
  rw [hvn] at key
  rw [hb, hv]
  exact ⟨key, key⟩

theorem scrollbar_roundtrip_error_bound_witness :
    (0 : ℤ) ≤ 100 ∧ (100 : ℤ) ≤ 100 ∧
    ((roundTripBrightness 600 100 - 100).natAbs ≤ 7 ∧
      (roundTripVolume 600 100 - 100).natAbs ≤ 7) :=
  ⟨by norm_num, by norm_num,
    scrollbar_roundtrip_error_bound 100 (by norm_num) (by norm_num)⟩

/-- A press on the alarm page that misses the done button and both
handler-side spinbox button columns leaves the state unchanged. -/
theorem click_alarm_noop (w h x y : ℤ) (s : UIState) (hp : s.current_page = Page.alarm)
    (h1 : ¬ inRect x y (doneX w) (doneY h) (doneX w + 140) (doneY h + 50))
    (h2 : ¬ (spinLeftX2 w - 50 ≤ x ∧ x ≤ spinLeftX2 w))
    (h3 : ¬ (spinRightX2 w - 50 ≤ x ∧ x ≤ spinRightX2 w)) :
    onCanvasClick w h s x y = s := by
  unfold onCanvasClick
  rw [if_neg (by simp [hp]), if_pos hp, if_neg h1, if_neg (by tauto), if_neg (by tauto),
    if_neg (by tauto), if_neg (by tauto)]

/-- C3: at canvas size 1024×600 the left spinbox panel is
`[142, 462] × [240, 420]` and its drawn up-button covers
`x ∈ [402, 460]` (the right 60 px column), but the press dispatcher only
tests `x ∈ [412, 462]` (right 50 px); the press `(405, 250)` lies inside
the drawn up-button yet mutates nothing. -/
theorem drawn_up_button_press_ignored :
    drawnUpZoneLeft 1024 600 405 250 ∧
    onCanvasClick 1024 600 { initState 7 5 with current_page := Page.alarm } 405 250
      = { initState 7 5 with current_page := Page.alarm } := by
  constructor
  · unfold drawnUpZoneLeft inRect spinLeftX2 spinLeftX1 centerX spinY2 spinY1
    rw [panelTop_600]
    decide
  · apply click_alarm_noop
    · rfl
    · unfold inRect doneX
      omega
    · unfold spinLeftX2 spinLeftX1 centerX
      decide
    · unfold spinRightX2 spinRightX1 centerX
      decide

/-- C4 (amended): the press handler never writes the scrollbar values; a
press inside a scrollbar band with no subsequent motion leaves both
brightness and volume unchanged — scrollbar updates happen only through
the drag (`<B1-Motion>`) handler. -/
theorem press_never_updates_scrollbars (w h x y : ℤ) (s : UIState) :
    (onCanvasClick w h s x y).brightness_value = s.brightness_value ∧
    (onCanvasClick w h s x y).volume_value = s.volume_value :=
  ⟨click_brightness_eq w h x y s, click_volume_eq w h x y s⟩

/-- C4 (counterexample): a single press at `(40, 175)` — inside the left
scrollbar band of the 1024×600 canvas — leaves brightness at its initial
50, whereas the drag formula at that point yields 93. -/
theorem press_in_scrollbar_band_noop :
    (onCanvasClick 1024 600 (initState 7 5) 40 175).brightness_value = 50 ∧
    dragValue (scrollTop 600) (scrollBottom 600 - scrollTop 600) 175 = 93 ∧
    (50 : ℤ) ≠ 93 := by
  refine ⟨?_, ?_, by decide⟩
  · rw [click_brightness_eq]
    rfl
  · rw [scrollTop_600, scrollBottom_600, dragValue_eval _ _ _ (by norm_num)]
    decide

/-- C5: alarm hour stays in `[0, 23]` and minute in `[0, 59]` under any
finite event sequence; moreover a press in a handler up-zone increments
the corresponding value modulo its range and a press strictly below the
midpoint in the down-zone decrements it modulo its range (Python `%`
wraps to a nonnegative result, so no press can fault). -/
theorem spinbox_modulo_closure (w h x y : ℤ) (s : UIState) (l : List Ev)
    (hh0 : 0 ≤ s.alarm_left_value) (hh1 : s.alarm_left_value ≤ 23)
    (hm0 : 0 ≤ s.alarm_right_value) (hm1 : s.alarm_right_value ≤ 59) :
    (0 ≤ (run s l).alarm_left_value ∧ (run s l).alarm_left_value ≤ 23 ∧
      0 ≤ (run s l).alarm_right_value ∧ (run s l).alarm_right_value ≤ 59) ∧
    (s.current_page = Page.alarm →
      ¬ inRect x y (doneX w) (doneY h) (doneX w + 140) (doneY h + 50) →
      (((spinLeftX2 w - 50 ≤ x ∧ x ≤ spinLeftX2 w ∧ spinY1 h ≤ y ∧
          y ≤ spinY1 h + Int.fdiv (spinY2 h - spinY1 h) 2) →
        (onCanvasClick w h s x y).alarm_left_value = (s.alarm_left_value + 1) % 24 ∧
        (onCanvasClick w h s x y).alarm_right_value = s.alarm_right_value) ∧
      ((spinLeftX2 w - 50 ≤ x ∧ x ≤ spinLeftX2 w ∧
          spinY1 h + Int.fdiv (spinY2 h - spinY1 h) 2 < y ∧ y ≤ spinY2 h) →
        (onCanvasClick w h s x y).alarm_left_value = (s.alarm_left_value - 1) % 24 ∧
        (onCanvasClick w h s x y).alarm_right_value = s.alarm_right_value) ∧
      ((spinRightX2 w - 50 ≤ x ∧ x ≤ spinRightX2 w ∧ spinY1 h ≤ y ∧
          y ≤ spinY1 h + Int.fdiv (spinY2 h - spinY1 h) 2) →
        (onCanvasClick w h s x y).alarm_right_value = (s.alarm_right_value + 1) % 60 ∧
        (onCanvasClick w h s x y).alarm_left_value = s.alarm_left_value) ∧
      ((spinRightX2 w - 50 ≤ x ∧ x ≤ spinRightX2 w ∧
          spinY1 h + Int.fdiv (spinY2 h - spinY1 h) 2 < y ∧ y ≤ spinY2 h) →
        (onCanvasClick w h s x y).alarm_right_value = (s.alarm_right_value - 1) % 60 ∧
        (onCanvasClick w h s x y).alarm_left_value = s.alarm_left_value))) := by
  have hrel : spinRightX2 w = spinLeftX2 w + 420 := by
    unfold spinRightX2 spinRightX1 spinLeftX2 spinLeftX1 centerX
    ring
  refine ⟨run_alarm_bounds s l hh0 hh1 hm0 hm1, ?_⟩
  intro hp hnd
  refine ⟨?_, ?_, ?_, ?_⟩
  · intro hz
    unfold onCanvasClick
    rw [if_neg (by simp [hp]), if_pos hp, if_neg hnd,
      if_pos ⟨hz.1, hz.2.1, hz.2.2.1, hz.2.2.2⟩]
    exact ⟨rfl, rfl⟩
  · intro hz
    unfold onCanvasClick
    rw [if_neg (by simp [hp]), if_pos hp, if_neg hnd,
      if_neg (by intro hc; omega),
      if_pos ⟨hz.1, hz.2.1, by omega, hz.2.2.2⟩]
    exact ⟨rfl, rfl⟩
  · intro hz
    unfold onCanvasClick
    rw [if_neg (by simp [hp]), if_pos hp, if_neg hnd,
      if_neg (by intro hc; omega), if_neg (by intro hc; omega),
      if_pos ⟨hz.1, hz.2.1, hz.2.2.1, hz.2.2.2⟩]
    exact ⟨rfl, rfl⟩
  · intro hz
    unfold onCanvasClick
    rw [if_neg (by simp [hp]), if_pos hp, if_neg hnd,
      if_neg (by intro hc; omega), if_neg (by intro hc; omega),
      if_neg (by intro hc; omega),
      if_pos ⟨hz.1, hz.2.1, by omega, hz.2.2.2⟩]
    exact ⟨rfl, rfl⟩

theorem spinbox_modulo_closure_witness :
    (0 : ℤ) ≤ 23 ∧ (23 : ℤ) ≤ 23 ∧ (0 : ℤ) ≤ 59 ∧ (59 : ℤ) ≤ 59 ∧
    ((0 ≤ (run { initState 23 59 with current_page := Page.alarm } []).alarm_left_value ∧
      (run { initState 23 59 with current_page := Page.alarm } []).alarm_left_value ≤ 23 ∧
      0 ≤ (run { initState 23 59 with current_page := Page.alarm } []).alarm_right_value ∧
      (run { initState 23 59 with current_page := Page.alarm } []).alarm_right_value ≤ 59) ∧
    (({ initState 23 59 with current_page := Page.alarm } : UIState).current_page = Page.alarm →
      ¬ inRect 420 250 (doneX 1024) (doneY 600) (doneX 1024 + 140) (doneY 600 + 50) →
      (((spinLeftX2 1024 - 50 ≤ 420 ∧ (420 : ℤ) ≤ spinLeftX2 1024 ∧ spinY1 600 ≤ 250 ∧
          (250 : ℤ) ≤ spinY1 600 + Int.fdiv (spinY2 600 - spinY1 600) 2) →
        (onCanvasClick 1024 600 { initState 23 59 with current_page := Page.alarm } 420 250).alarm_left_value =
          (({ initState 23 59 with current_page := Page.alarm } : UIState).alarm_left_value + 1) % 24 ∧
        (onCanvasClick 1024 600 { initState 23 59 with current_page := Page.alarm } 420 250).alarm_right_value =
          ({ initState 23 59 with current_page := Page.alarm } : UIState).alarm_right_value) ∧
      ((spinLeftX2 1024 - 50 ≤ 420 ∧ (420 : ℤ) ≤ spinLeftX2 1024 ∧
          spinY1 600 + Int.fdiv (spinY2 600 - spinY1 600) 2 < 250 ∧ (250 : ℤ) ≤ spinY2 600) →
        (onCanvasClick 1024 600 { initState 23 59 with current_page := Page.alarm } 420 250).alarm_left_value =
          (({ initState 23 59 with current_page := Page.alarm } : UIState).alarm_left_value - 1) % 24 ∧
        (onCanvasClick 1024 600 { initState 23 59 with current_page := Page.alarm } 420 250).alarm_right_value =
          ({ initState 23 59 with current_page := Page.alarm } : UIState).alarm_right_value) ∧
      ((spinRightX2 1024 - 50 ≤ 420 ∧ (420 : ℤ) ≤ spinRightX2 1024 ∧ spinY1 600 ≤ 250 ∧
          (250 : ℤ) ≤ spinY1 600 + Int.fdiv (spinY2 600 - spinY1 600) 2) →
        (onCanvasClick 1024 600 { initState 23 59 with current_page := Page.alarm } 420 250).alarm_right_value =
          (({ initState 23 59 with current_page := Page.alarm } : UIState).alarm_right_value + 1) % 60 ∧
        (onCanvasClick 1024 600 { initState 23 59 with current_page := Page.alarm } 420 250).alarm_left_value =
          ({ initState 23 59 with current_page := Page.alarm } : UIState).alarm_left_value) ∧
      ((spinRightX2 1024 - 50 ≤ 420 ∧ (420 : ℤ) ≤ spinRightX2 1024 ∧
          spinY1 600 + Int.fdiv (spinY2 600 - spinY1 600) 2 < 250 ∧ (250 : ℤ) ≤ spinY2 600) →
        (onCanvasClick 1024 600 { initState 23 59 with current_page := Page.alarm } 420 250).alarm_right_value =
          (({ initState 23 59 with current_page := Page.alarm } : UIState).alarm_right_value - 1) % 60 ∧
        (onCanvasClick 1024 600 { initState 23 59 with current_page := Page.alarm } 420 250).alarm_left_value =
          ({ initState 23 59 with current_page := Page.alarm } : UIState).alarm_left_value)))) :=
  ⟨by norm_num, by norm_num, by norm_num, by norm_num,
    spinbox_modulo_closure 1024 600 420 250 { initState 23 59 with current_page := Page.alarm } []
      (by norm_num [initState]) (by norm_num [initState])
      (by norm_num [initState]) (by norm_num [initState])⟩

/-- C6: on the alarm page a press inside the done button stores the
zero-padded `"HH:MM"` string built from the current hour and minute and
changes nothing else (in particular hour and minute are not reset); with
hour 7 and minute 5 the stored string is exactly `"07:05"`. -/
theorem done_button_sets_alarm_time (w h x y : ℤ) (s : UIState)
    (hp : s.current_page = Page.alarm)
    (hin : inRect x y (doneX w) (doneY h) (doneX w + 140) (doneY h + 50)) :
    onCanvasClick w h s x y = { s with alarm_set_time := some (alarmTimeString s) } ∧
    (onCanvasClick w h s x y).alarm_left_value = s.alarm_left_value ∧
    (onCanvasClick w h s x y).alarm_right_value = s.alarm_right_value ∧
    (s.alarm_left_value = 7 → s.alarm_right_value = 5 →
      (onCanvasClick w h s x y).alarm_set_time = some ("07:05")) := by
  have h1 : onCanvasClick w h s x y = { s with alarm_set_time := some (alarmTimeString s) } := by
    unfold onCanvasClick
    rw [if_neg (by simp [hp]), if_pos hp, if_pos hin]
  refine ⟨h1, by rw [h1], by rw [h1], ?_⟩
  intro h7 h5
  rw [h1]
  show some (alarmTimeString s) = some ("07:05")
  unfold alarmTimeString
  rw [h7, h5]
  decide

theorem done_button_sets_alarm_time_witness :
    (({ initState 7 5 with current_page := Page.alarm } : UIState).current_page = Page.alarm) ∧
    inRect 850 580 (doneX 1024) (doneY 600) (doneX 1024 + 140) (doneY 600 + 50) ∧
    (onCanvasClick 1024 600 { initState 7 5 with current_page := Page.alarm } 850 580 =
      { ({ initState 7 5 with current_page := Page.alarm } : UIState) with
        alarm_set_time := some (alarmTimeString { initState 7 5 with current_page := Page.alarm }) } ∧
    (onCanvasClick 1024 600 { initState 7 5 with current_page := Page.alarm } 850 580).alarm_left_value =
      ({ initState 7 5 with current_page := Page.alarm } : UIState).alarm_left_value ∧
    (onCanvasClick 1024 600 { initState 7 5 with current_page := Page.alarm } 850 580).alarm_right_value =
      ({ initState 7 5 with current_page := Page.alarm } : UIState).alarm_right_value ∧
    (({ initState 7 5 with current_page := Page.alarm } : UIState).alarm_left_value = 7 →
      ({ initState 7 5 with current_page := Page.alarm } : UIState).alarm_right_value = 5 →
      (onCanvasClick 1024 600 { initState 7 5 with current_page := Page.alarm } 850 580).alarm_set_time =
        some ("07:05"))) :=
  ⟨rfl,
   by unfold inRect doneX doneY; rw [panelTop_600, panelH_600]; decide,
   done_button_sets_alarm_time 1024 600 850 580 _ rfl
     (by unfold inRect doneX doneY; rw [panelTop_600, panelH_600]; decide)⟩

/-- C7: on the camera page a press inside the record button flips
`is_recording` and changes no other field of the state, and a second
press at the same point restores the original recording flag. -/
theorem camera_button_toggles (w h x y : ℤ) (s : UIState)
    (hp : s.current_page = Page.camera)
    (hin : inRect x y (camBtnX w) (camBtnY h) (camBtnX w + 140) (camBtnY h + 50)) :
    onCanvasClick w h s x y = { s with is_recording := !s.is_recording } ∧
    (onCanvasClick w h (onCanvasClick w h s x y) x y).is_recording = s.is_recording := by
  have h1 : onCanvasClick w h s x y = { s with is_recording := !s.is_recording } := by
    unfold onCanvasClick
    rw [if_pos ⟨hp, hin⟩]
  refine ⟨h1, ?_⟩
  rw [h1]
  have h2 : onCanvasClick w h { s with is_recording := !s.is_recording } x y =
      { { s with is_recording := !s.is_recording } with is_recording := !(!s.is_recording) } := by
    unfold onCanvasClick
    rw [if_pos ⟨hp, hin⟩]
  rw [h2]
  simp

theorem camera_button_toggles_witness :
    ((initState 7 5).current_page = Page.camera) ∧
    inRect 512 550 (camBtnX 1024) (camBtnY 600) (camBtnX 1024 + 140) (camBtnY 600 + 50) ∧
    (onCanvasClick 1024 600 (initState 7 5) 512 550 =
      { initState 7 5 with is_recording := !(initState 7 5).is_recording } ∧
    (onCanvasClick 1024 600 (onCanvasClick 1024 600 (initState 7 5) 512 550) 512 550).is_recording =
      (initState 7 5).is_recording) :=
  ⟨rfl,
   by unfold inRect camBtnX; rw [camBtnY_600]; decide,
   camera_button_toggles 1024 600 512 550 _ rfl
     (by unfold inRect camBtnX; rw [camBtnY_600]; decide)⟩

/-- C9: in the desktop variant brightness and volume start at 50 and stay
integers in `[0, 100]` under every finite sequence of pointer events,
page switches and timer ticks: the press handler never writes them and
the drag handler clamps what it writes. -/
theorem brightness_volume_invariant (h0 m0 : ℤ) (l : List Ev) :
    (initState h0 m0).brightness_value = 50 ∧ (initState h0 m0).volume_value = 50 ∧
    (0 ≤ (run (initState h0 m0) l).brightness_value ∧
      (run (initState h0 m0) l).brightness_value ≤ 100 ∧
      0 ≤ (run (initState h0 m0) l).volume_value ∧
      (run (initState h0 m0) l).volume_value ≤ 100) :=
  ⟨rfl, rfl, run_brightness_volume_bounds (initState h0 m0) l
    (by norm_num [initState]) (by norm_num [initState])
    (by norm_num [initState]) (by norm_num [initState])⟩

/-- A JSON value as stored in the state map of the web variant. -/
inductive JVal where
  | jnull
  | jbool (b : Bool)
  | jint (n : ℤ)
  | jnum (q : ℚ)
  | jstr (s : String)
deriving DecidableEq

/-- An ordered string-keyed map, modelling a Python dict with distinct
keys (`state` in `app.py`, or a parsed JSON object body). -/
def StateMap : Type := List (String × JVal)

/-- Dict lookup: the value at the first binding of `k`, if any. -/
def lookupKey (m : StateMap) (k : String) : Option JVal :=
  (List.find? (fun p => p.1 = k) m).map Prod.snd

/-- One loop iteration of `update_state`:
`if key in state: state[key] = data[key]` — assign `v` at `k` when `k` is
a known key, otherwise leave the map unchanged. -/
def assignIfKnown (m : StateMap) (k : String) (v : JVal) : StateMap :=
  if List.any m (fun p => p.1 = k) then
    List.map (fun p => if p.1 = k then (p.1, v) else p) m
  else m

/-- Endpoint `update_state` (`app.py`): fold the request body over the state map,
assigning only keys already present. -/
def updateState (m data : StateMap) : StateMap :=
  List.foldl (fun acc kv => assignIfKnown acc kv.1 kv.2) m data

/-- The JSON payload of the POST `/api/state` response:
`jsonify` of a success flag and the merged map under the `state` key. -/
def updateStateResponse (m data : StateMap) : Bool × StateMap :=
  (true, updateState m data)

/-- The initial `state` dict of `app.py`, with the wall-clock alarm hour
and minute as parameters. -/
def initialServerState (hh mm : ℤ) : StateMap :=
  [("current_page", JVal.jstr ("camera")),
   ("is_recording", JVal.jbool false),
   ("brightness", JVal.jint 50),
   ("volume", JVal.jint 50),
   ("alarm_hour", JVal.jint hh),
   ("alarm_minute", JVal.jint mm),
   ("alarm_set_time", JVal.jnull),
   ("temperature", JVal.jnum 20)]

theorem lookupKey_isSome_iff_any (m : StateMap) (k : String) :
    (lookupKey m k).isSome = List.any m (fun p => p.1 = k) := by
  induction m with
  | nil => rfl
  | cons p t ih =>
    by_cases hk : p.1 = k
    · simp [lookupKey, List.find?, hk]
    · simpa [lookupKey, List.find?, hk] using ih

theorem lookupKey_cons (p : String × JVal) (t : StateMap) (k : String) :
    lookupKey (p :: t) k = if p.1 = k then some p.2 else lookupKey t k := by
  by_cases hp : p.1 = k
  · simp [lookupKey, List.find?, hp]
  · simp [lookupKey, List.find?, hp]

theorem lookupKey_map_set (m : StateMap) (k k' : String) (v : JVal) :
    lookupKey (List.map (fun p => if p.1 = k then (p.1, v) else p) m) k' =
      if k' = k then (lookupKey m k).map (fun _ => v) else lookupKey m k' := by
  induction m with
  | nil => simp [lookupKey]
  | cons p t ih =>
    by_cases hpk : p.1 = k
    · simp only [List.map_cons, lookupKey_cons, if_pos hpk]
      by_cases hp : p.1 = k'
      · have hk' : k' = k := by rw [← hp, hpk]
        rw [if_pos hp, if_pos hk']
        rfl
      · have hk' : k' ≠ k := fun hc => hp (by rw [hpk, ← hc])
        rw [if_neg hp, ih, if_neg hk', if_neg hk', if_neg hp]
    · simp only [List.map_cons, lookupKey_cons, if_neg hpk]
      by_cases hp : p.1 = k'
      · have hk' : k' ≠ k := fun hc => hpk (hp.trans hc)
        rw [if_pos hp, if_neg hk', if_pos hp]
      · rw [if_neg hp, ih]
        by_cases hk' : k' = k
        · rw [if_pos hk', if_pos hk']
        · rw [if_neg hk', if_neg hk', if_neg hp]

theorem lookupKey_assignIfKnown (m : StateMap) (k k' : String) (v : JVal) :
    lookupKey (assignIfKnown m k v) k' =
      if k' = k ∧ (lookupKey m k).isSome then some v else lookupKey m k' := by
  unfold assignIfKnown
  by_cases hany : List.any m (fun p => p.1 = k)
  · rw [if_pos hany, lookupKey_map_set]
    by_cases hk' : k' = k
    · subst hk'
      have hs : (lookupKey m k').isSome := by rw [lookupKey_isSome_iff_any]; exact hany
      obtain ⟨w, hw⟩ := Option.isSome_iff_exists.mp hs
      simp [hw, hs]
    · simp [hk']
  · rw [if_neg hany]
    have hs : ¬ (lookupKey m k).isSome := by
      rw [lookupKey_isSome_iff_any]
      exact fun hc => hany hc
    rw [if_neg (fun hc => hs hc.2)]

theorem lookupKey_eq_none_of_not_mem (m : StateMap) (k : String)
    (hk : k ∉ List.map Prod.fst m) : lookupKey m k = none := by
  induction m with
  | nil => rfl
  | cons p t ih =>
    simp only [List.map, List.mem_cons, not_or] at hk
    have hp : ¬ p.1 = k := fun hc => hk.1 hc.symm
    simpa [lookupKey, List.find?, hp] using ih hk.2

theorem updateState_cons (m : StateMap) (kv : String × JVal) (t : StateMap) :
    updateState m (kv :: t) = updateState (assignIfKnown m kv.1 kv.2) t := rfl

theorem lookupKey_updateState (m d : StateMap) (k : String)
    (hd : (List.map Prod.fst d).Nodup) :
    lookupKey (updateState m d) k =
      if (lookupKey m k).isSome ∧ (lookupKey d k).isSome then lookupKey d k
      else lookupKey m k := by
  induction d generalizing m with
  | nil => simp [updateState, lookupKey]
  | cons kv t ih =>
    rw [List.map_cons, List.nodup_cons] at hd
    rw [updateState_cons, ih _ hd.2]
    by_cases hk : k = kv.1
    · subst hk
      have ht : lookupKey t kv.1 = none := lookupKey_eq_none_of_not_mem t kv.1 hd.1
      have hc : lookupKey (kv :: t) kv.1 = some kv.2 := by
        rw [lookupKey_cons, if_pos rfl]
      have ha : lookupKey (assignIfKnown m kv.1 kv.2) kv.1 =
          if (lookupKey m kv.1).isSome then some kv.2 else lookupKey m kv.1 := by
        rw [lookupKey_assignIfKnown]
        by_cases hs : (lookupKey m kv.1).isSome
        · rw [if_pos ⟨rfl, hs⟩, if_pos hs]
        · rw [if_neg (fun hcc => hs hcc.2), if_neg hs]
      rw [ht, ha, hc]
      by_cases hs : (lookupKey m kv.1).isSome <;> simp [hs]
    · have hne : ¬ (k = kv.1 ∧ (lookupKey m kv.1).isSome) := fun hc => hk hc.1
      have ha : lookupKey (assignIfKnown m kv.1 kv.2) k = lookupKey m k := by
        rw [lookupKey_assignIfKnown, if_neg hne]
      have hc : lookupKey (kv :: t) k = lookupKey t k := by
        rw [lookupKey_cons, if_neg (show ¬ kv.1 = k from fun hcc => hk hcc.symm)]
      rw [ha, hc]

/-- C8: POST `/api/state` overwrites exactly the keys already present in
the state map with the supplied values, silently ignores unknown keys,
applies no numeric validation (a body `{"brightness": 150}` stores 150
unchanged), and responds with the merged state. -/
theorem update_state_merges_known_keys (m d : StateMap) (k : String)
    (hd : (List.map Prod.fst d).Nodup) :
    (lookupKey (updateState m d) k =
      if (lookupKey m k).isSome ∧ (lookupKey d k).isSome then lookupKey d k
      else lookupKey m k) ∧
    updateStateResponse m d = (true, updateState m d) ∧
    lookupKey (updateState (initialServerState 7 30) [("brightness", JVal.jint 150)])
      "brightness" = some (JVal.jint 150) ∧
    lookupKey (updateState (initialServerState 7 30) [("no_such_key", JVal.jint 1)])
      "no_such_key" = none :=
  ⟨lookupKey_updateState m d k hd, rfl, by decide, by decide⟩

theorem update_state_merges_known_keys_witness :
    (List.map Prod.fst ([("brightness", JVal.jint 150)] : StateMap)).Nodup ∧
    ((lookupKey (updateState (initialServerState 7 30) [("brightness", JVal.jint 150)])
        "brightness" =
      if (lookupKey (initialServerState 7 30) "brightness").isSome ∧
          (lookupKey ([("brightness", JVal.jint 150)] : StateMap) "brightness").isSome then
        lookupKey ([("brightness", JVal.jint 150)] : StateMap) "brightness"
      else lookupKey (initialServerState 7 30) "brightness") ∧
    updateStateResponse (initialServerState 7 30) [("brightness", JVal.jint 150)] =
      (true, updateState (initialServerState 7 30) [("brightness", JVal.jint 150)]) ∧
    lookupKey (updateState (initialServerState 7 30) [("brightness", JVal.jint 150)])
      "brightness" = some (JVal.jint 150) ∧
    lookupKey (updateState (initialServerState 7 30) [("no_such_key", JVal.jint 1)])
      "no_such_key" = none) :=
  ⟨by decide,
   update_state_merges_known_keys (initialServerState 7 30)
     [("brightness", JVal.jint 150)] "brightness" (by decide)⟩

/-- Function `get_camera_frame` (`app.py`): holding the camera lock, return `None`
when the camera is uninitialized or recording is off; otherwise a camera
read failure or a JPEG-encode failure also yields `None`, and a
successful read-and-encode yields the encoded bytes.  The read result and
the encoder are passed in as parameters of the environment. -/
def getCameraFrame (cameraOpen recording : Bool) (readResult : Option (List UInt8))
    (encode : List UInt8 → Option (List UInt8)) : Option (List UInt8) :=
  if cameraOpen = false ∨ recording = false then none
  else
    match readResult with
    | none => none
    | some fr =>
      match encode fr with
      | some b => some b
      | none => none

/-- The multipart part header emitted by `generate_camera_stream`. -/
def multipartHeader : List UInt8 :=
  ("--frame\r\nContent-Type: image/jpeg\r\n\r\n").toUTF8.toList

/-- The multipart part trailer emitted by `generate_camera_stream`. -/
def multipartTail : List UInt8 := ("\r\n").toUTF8.toList

/-- What one iteration of the `generate_camera_stream` loop does. -/
inductive StreamStep where
  | emitPart (b : List UInt8)
  | sleep
deriving DecidableEq

/-- One iteration of `generate_camera_stream`: yield a multipart part iff
the frame is truthy (present and nonempty), else sleep 0.1 s. -/
def generateStreamStep (frame : Option (List UInt8)) : StreamStep :=
  match frame with
  | some fr => if fr ≠ [] then StreamStep.emitPart (multipartHeader ++ fr ++ multipartTail)
    else StreamStep.sleep
  | none => StreamStep.sleep

/-- C10: with an uninitialized camera or recording off,
`get_camera_frame` returns `None` and the stream iteration sleeps instead
of yielding; moreover any emitted part wraps an actual encoded camera
frame — no placeholder bytes can ever enter the stream. -/
theorem camera_stream_silent_when_not_recording (cameraOpen recording : Bool)
    (readResult : Option (List UInt8)) (encode : List UInt8 → Option (List UInt8))
    (hoff : cameraOpen = false ∨ recording = false) :
    getCameraFrame cameraOpen recording readResult encode = none ∧
    generateStreamStep (getCameraFrame cameraOpen recording readResult encode) =
      StreamStep.sleep ∧
    (∀ frame b, generateStreamStep frame = StreamStep.emitPart b →
      ∃ fr, frame = some fr ∧ fr ≠ [] ∧ b = multipartHeader ++ fr ++ multipartTail) := by
  have h1 : getCameraFrame cameraOpen recording readResult encode = none := by
    unfold getCameraFrame
    rw [if_pos hoff]
  refine ⟨h1, by rw [h1]; rfl, ?_⟩
  intro frame b hemit
  cases frame with
  | none => exact absurd hemit (by simp [generateStreamStep])
  | some fr =>
    by_cases hfr : fr = []
    · subst hfr
      exact absurd hemit (by simp [generateStreamStep])
    · refine ⟨fr, rfl, hfr, ?_⟩
      simp [generateStreamStep, hfr] at hemit
      rw [List.append_assoc]
      exact hemit.symm

theorem camera_stream_silent_when_not_recording_witness :
    ((false = false ∨ true = false) ∧
    (getCameraFrame false true none (fun _ => none) = none ∧
    generateStreamStep (getCameraFrame false true none (fun _ => none)) = StreamStep.sleep ∧
    (∀ frame b, generateStreamStep frame = StreamStep.emitPart b →
      ∃ fr, frame = some fr ∧ fr ≠ [] ∧ b = multipartHeader ++ fr ++ multipartTail))) :=
  ⟨Or.inl rfl,
   camera_stream_silent_when_not_recording false true none (fun _ => none) (Or.inl rfl)⟩
